import Mathlib

/-!
Verification of the quiz-solver repository: a shallow embedding of
`src/quiz_solver.py` (the `QuizSolver` class: `solve_quiz`,
`_get_quiz_question`, `_submit_answer`) and of the `POST /quiz` handler in
`src/main.py`, together with theorems settling the frozen claims about the
orchestration loop, the extraction heuristics, the submitter, and the
HTTP-level result mapping.

Values that cross the Python/JSON boundary (submission verdicts, result
dicts, the current URL variable) are modelled by an inductive `Json` type
with Python truthiness; `json.loads` maps JSON null to Python None, so
`Json.null` stands for both.  External effects (the rendered-page fetch,
the LLM solve call, the submission HTTP exchange) are oracle inputs: each
loop iteration of `solve_quiz` consumes one `StepInput` carrying the
elapsed-time reading, the fetched page content (none when navigation or
page evaluation raised), and the per-attempt solve/submit outcomes.
-/

/-- A JSON value as produced by `response.json()` / consumed by
`json.dumps`.  `null` also stands for Python `None` (the two are
identified by the `json` module). -/
inductive Json where
  | null : Json
  | bool (b : Bool) : Json
  | num (q : ℚ) : Json
  | str (s : String) : Json
  | arr (l : List Json) : Json
  | obj (l : List (String × Json)) : Json

/-- Python truthiness of a JSON value: `None`, `False`, `0`, empty string,
empty list and empty dict are falsy, everything else is truthy. -/
def truthy : Json → Bool
  | Json.null => false
  | Json.bool b => b
  | Json.num q => if q = 0 then false else true
  | Json.str s => if s = "" then false else true
  | Json.arr l => !l.isEmpty
  | Json.obj l => !l.isEmpty

/-- Python `dict.get(key)`: first binding wins, missing key gives `None`
(modelled as `Json.null`).  Only ever applied to `Json.obj` values in the
embedded program (`_submit_answer` results are gated by an
object-shape check in `runRetries` below, mirroring the `AttributeError`
a non-dict would raise in Python). -/
def pyGet : Json → String → Json
  | Json.obj kvs, k => (kvs.lookup k).getD Json.null
  | _, _ => Json.null

/-- Whether a JSON object carries a binding for the key. -/
def pyHasKey : Json → String → Bool
  | Json.obj kvs, k => (kvs.lookup k).isSome
  | _, _ => false

/-! ## Character and string helpers (Python `re` / `str` semantics) -/

/-- The backtick character, written by code point to keep source plain. -/
def btickChar : Char := Char.ofNat 96

/-- The single-quote character. -/
def squoteChar : Char := Char.ofNat 39

/-- The double-quote character. -/
def dquoteChar : Char := Char.ofNat 34

/-- Python `\s` on ASCII input: space, tab, newline, carriage return,
vertical tab, form feed. -/
def pyIsSpace (c : Char) : Bool :=
  c = ' ' || c = Char.ofNat 9 || c = Char.ofNat 10 || c = Char.ofNat 13 ||
  c = Char.ofNat 11 || c = Char.ofNat 12

/-- Exact (case-sensitive) list-of-chars match at the head. -/
def startsWithL : List Char → List Char → Bool
  | [], _ => true
  | _ :: _, [] => false
  | p :: ps, c :: cs => p = c && startsWithL ps cs

/-- Case-insensitive match at the head (needle given in lower case),
modelling `re.IGNORECASE` on ASCII pattern literals. -/
def startsWithCI : List Char → List Char → Bool
  | [], _ => true
  | _ :: _, [] => false
  | p :: ps, c :: cs => p = c.toLower && startsWithCI ps cs

/-- Python `needle in hay` (exact substring test). -/
def containsL (needle : List Char) : List Char → Bool
  | [] => startsWithL needle []
  | cs@(_ :: rest) => startsWithL needle cs || containsL needle rest

/-- Case-insensitive substring test (needle in lower case). -/
def containsCI (needle : List Char) : List Char → Bool
  | [] => startsWithCI needle []
  | cs@(_ :: rest) => startsWithCI needle cs || containsCI needle rest

/-- Leftmost-match scan: apply a match-at-this-position function at every
suffix in order (including the empty suffix, as `re.search` does) and
return the first hit. -/
def firstScan (f : List Char → Option (List Char)) : List Char → Option (List Char)
  | [] => f []
  | cs@(_ :: rest) =>
    match f cs with
    | some r => some r
    | none => firstScan f rest

/-- Leftmost-match existence scan for group-less patterns. -/
def anySuffix (p : List Char → Bool) : List Char → Bool
  | [] => p []
  | cs@(_ :: rest) => p cs || anySuffix p rest

/-- Python `text[:n]` on a string (slicing by code points). -/
def takeStr (n : Nat) (s : String) : String := String.mk (s.toList.take n)

/-! ## `base64.b64decode(...).decode("utf-8")`

The standard-library decode used at `quiz_solver.py:153`.  Modelled from
the documented behaviour of `base64.b64decode` with `validate=False`: the
`str` argument is first encoded as ASCII (failing on any non-ASCII
character), characters outside the base64 alphabet and `=` are discarded,
the remaining length must be a multiple of four, and `=` is accepted only
as final padding.  The byte string is then decoded as strict UTF-8. -/

/-- Whether a character belongs to the base64 alphabet proper. -/
def isB64Alpha (c : Char) : Bool :=
  ('A' ≤ c && c ≤ 'Z') || ('a' ≤ c && c ≤ 'z') || ('0' ≤ c && c ≤ '9') ||
  c = '+' || c = '/'

/-- Six-bit value of a base64 alphabet character. -/
def b64Val (c : Char) : Nat :=
  if 'A' ≤ c && c ≤ 'Z' then c.toNat - 65
  else if 'a' ≤ c && c ≤ 'z' then c.toNat - 71
  else if '0' ≤ c && c ≤ '9' then c.toNat + 4
  else if c = '+' then 62
  else 63

/-- Decode filtered base64 characters in blocks of four, allowing `=`
padding only in the final block. -/
def b64Blocks : List Char → Option (List Nat)
  | [] => some []
  | a :: b :: c :: d :: rest =>
    if a = '=' || b = '=' then none
    else if c = '=' then
      if d = '=' && rest = [] then
        some [(b64Val a) * 4 + (b64Val b) / 16]
      else none
    else if d = '=' then
      if rest = [] then
        some [(b64Val a) * 4 + (b64Val b) / 16,
              (b64Val b) % 16 * 16 + (b64Val c) / 4]
      else none
    else
      match b64Blocks rest with
      | none => none
      | some bs =>
        some (((b64Val a) * 4 + (b64Val b) / 16) ::
              ((b64Val b) % 16 * 16 + (b64Val c) / 4) ::
              ((b64Val c) % 4 * 64 + b64Val d) :: bs)
  | _ => none

/-- `base64.b64decode` on a `str` argument. -/
def b64decode (cs : List Char) : Option (List Nat) :=
  if cs.all (fun c => c.toNat < 128) then
    b64Blocks (cs.filter (fun c => isB64Alpha c || c = '='))
  else none

/-- Strict UTF-8 decoding of a byte list (`bytes.decode("utf-8")`):
rejects truncated sequences, overlong encodings, surrogates and
code points beyond U+10FFFF. -/
def utf8decode : List Nat → Option (List Char)
  | [] => some []
  | b :: rest =>
    if b < 128 then
      match utf8decode rest with
      | some cs => some (Char.ofNat b :: cs)
      | none => none
    else if 194 ≤ b && b ≤ 223 then
      match rest with
      | c1 :: rest2 =>
        if 128 ≤ c1 && c1 ≤ 191 then
          match utf8decode rest2 with
          | some cs => some (Char.ofNat ((b - 192) * 64 + (c1 - 128)) :: cs)
          | none => none
        else none
      | [] => none
    else if 224 ≤ b && b ≤ 239 then
      match rest with
      | c1 :: c2 :: rest2 =>
        let lo1 : Nat := if b = 224 then 160 else 128
        let hi1 : Nat := if b = 237 then 159 else 191
        if lo1 ≤ c1 && c1 ≤ hi1 && 128 ≤ c2 && c2 ≤ 191 then
          match utf8decode rest2 with
          | some cs =>
            some (Char.ofNat ((b - 224) * 4096 + (c1 - 128) * 64 + (c2 - 128)) :: cs)
          | none => none
        else none
      | _ => none
    else if 240 ≤ b && b ≤ 244 then
      match rest with
      | c1 :: c2 :: c3 :: rest2 =>
        let lo1 : Nat := if b = 240 then 144 else 128
        let hi1 : Nat := if b = 244 then 143 else 191
        if lo1 ≤ c1 && c1 ≤ hi1 && 128 ≤ c2 && c2 ≤ 191 && 128 ≤ c3 && c3 ≤ 191 then
          match utf8decode rest2 with
          | some cs =>
            some (Char.ofNat ((b - 240) * 262144 + (c1 - 128) * 4096 +
                              (c2 - 128) * 64 + (c3 - 128)) :: cs)
          | none => none
        else none
      | _ => none
    else none

/-- `base64.b64decode(group).decode("utf-8")` as one step, as performed at
`quiz_solver.py:153`; `none` is the exception path swallowed by the
`except` at line 156. -/
def b64utf8 (cs : List Char) : Option String :=
  match b64decode cs with
  | none => none
  | some bytes =>
    match utf8decode bytes with
    | some out => some (String.mk out)
    | none => none

/-! ## Question extraction (`_get_quiz_question`, `quiz_solver.py:119-196`)

Navigation and page evaluation are effects; the pure part below receives
the final `result_content` string (after the `#result` / `body.innerText`
choice made by the page oracle) and the current URL, and models lines
141-192.  Each regex of the source is compiled by hand into a
leftmost-match scanner with the exact backtracking behaviour of the
concrete pattern. -/

/-- Line 142: `"atob" in result_content or "base64" in result_content.lower()`. -/
def signalsEncoding (content : String) : Bool :=
  containsL "atob".toList content.toList ||
  containsL "base64".toList (content.toList.map Char.toLower)

/-- First match of the backtick decode pattern
(`atob` then an open paren and backtick, a nonempty run of non-backtick
characters, then backtick and close paren); returns the captured group. -/
def cand1Match (cs : List Char) : Option (List Char) :=
  firstScan (fun s =>
    if startsWithL ("atob(".toList ++ [btickChar]) s then
      let after := s.drop 6
      let run := after.takeWhile (fun c => c ≠ btickChar)
      if run.isEmpty then none
      else
        match after.drop run.length with
        | _ :: cp :: _ => if cp = ')' then some run else none
        | _ => none
    else none) cs

/-- First match of the quoted decode pattern (`atob` then an open paren, a
single or double quote, a nonempty run of non-quote characters, a closing
quote of either kind, and a close paren); returns the captured group. -/
def cand2Match (cs : List Char) : Option (List Char) :=
  firstScan (fun s =>
    if startsWithL "atob(".toList s then
      let after := s.drop 5
      match after with
      | q :: rest =>
        if q = dquoteChar || q = squoteChar then
          let run := rest.takeWhile (fun c => c ≠ dquoteChar && c ≠ squoteChar)
          if run.isEmpty then none
          else
            match rest.drop run.length with
            | _ :: cp :: _ => if cp = ')' then some run else none
            | _ => none
        else none
      | [] => none
    else none) cs

/-- First match of the labeled decode pattern (`base64` then a nonempty
run of colon/whitespace, then a nonempty run of base64-alphabet
characters); returns the captured group. -/
def cand3Match (cs : List Char) : Option (List Char) :=
  firstScan (fun s =>
    if startsWithL "base64".toList s then
      let after := s.drop 6
      let sep := after.takeWhile (fun c => c = ':' || pyIsSpace c)
      if sep.isEmpty then none
      else
        let run := (after.drop sep.length).takeWhile (fun c => isB64Alpha c || c = '=')
        if run.isEmpty then none else some run
    else none) cs

/-- Captured group of decode-pattern candidate `i` on the content, fed to
the decoder; `none` when the pattern does not match or the decode raised
(both continue to the next candidate in the source loop). -/
def candDecoded (i : Nat) (content : String) : Option String :=
  match i with
  | 0 => (cand1Match content.toList).bind b64utf8
  | 1 => (cand2Match content.toList).bind b64utf8
  | 2 => (cand3Match content.toList).bind b64utf8
  | _ => none

/-- Lines 141-158: when an encoded payload is signalled, replace the
content with the first candidate that both matches and decodes; keep the
raw content when the signal is absent or every candidate fails. -/
def decodePhase (content : String) : String :=
  if signalsEncoding content then
    match candDecoded 0 content with
    | some t => t
    | none =>
      match candDecoded 1 content with
      | some t => t
      | none =>
        match candDecoded 2 content with
        | some t => t
        | none => content
  else content

/-- Character class of the URL-body runs in the submit-URL patterns:
everything except whitespace, angle brackets, quotes and close paren. -/
def isXChar (c : Char) : Bool :=
  !(pyIsSpace c || c = '<' || c = '>' || c = dquoteChar || c = squoteChar || c = ')')

/-- Whether a scheme (`http` with optional `s`, case-insensitively, then
`://`) starts here; returns the scheme length when it does. -/
def schemeLen (s : List Char) : Option Nat :=
  if startsWithCI "https://".toList s then some 8
  else if startsWithCI "http://".toList s then some 7
  else none

/-- Submit-URL pattern (a) (and its duplicate (d)): a URL literal whose
run after the scheme contains `/submit` at offset at least one.  The
greedy run plus backtracking of the source regex make the existence of a
match equivalent to this condition; the match carries no capture group,
which is what trips the `group(1)` call at line 171. -/
def patSubmitLiteral (cs : List Char) : Bool :=
  anySuffix (fun s =>
    match schemeLen s with
    | some n =>
      let run := (s.drop n).takeWhile isXChar
      containsCI "/submit".toList (run.drop 1) && !run.isEmpty
    | none => false) cs

/-- A scheme-and-run URL starting exactly here (the capture group of
patterns (b) and (c)); returns the matched slice in original case. -/
def urlAt (s : List Char) : Option (List Char) :=
  match schemeLen s with
  | some n =>
    let run := (s.drop n).takeWhile isXChar
    if run.isEmpty then none else some (s.take n ++ run)
  | none => none

/-- The lazy gap of patterns (b)/(c): starting here, find the earliest
position not beyond a newline where `to` (case-insensitive) is followed
by nonempty whitespace and then a URL; returns the URL capture. -/
def gapScan : List Char → Option (List Char)
  | [] => none
  | cs@(c :: rest) =>
    match
      (if startsWithCI "to".toList cs then
        let after := cs.drop 2
        let ws := after.takeWhile pyIsSpace
        if ws.isEmpty then none else urlAt (after.drop ws.length)
      else none)
    with
    | some r => some r
    | none => if c = Char.ofNat 10 then none else gapScan rest

/-- Patterns (b)/(c): keyword (case-insensitive), lazy gap, `to`,
whitespace, captured URL; leftmost occurrence wins. -/
def patKeyTo (key : List Char) (cs : List Char) : Option (List Char) :=
  firstScan (fun s =>
    if startsWithCI key s then gapScan (s.drop key.length) else none) cs

/-- Lines 160-172: the ordered submit-URL pattern cascade.  Patterns (a)
and (d) carry no capture groups, so on a match `lastindex` is `None`
(never `0`) and the source unconditionally calls `group(1)`, raising
`IndexError`; this is the `Except.error` outcome, which the enclosing
`try` of `_get_quiz_question` turns into an extraction failure.  Patterns
(b) and (c) capture the URL and return it.  Pattern (d) matches a subset
of pattern (a) and is therefore unreachable. -/
def findSubmitUrl (content : String) : Except Unit (Option String) :=
  let cs := content.toList
  if patSubmitLiteral cs then Except.error ()
  else
    match patKeyTo "post".toList cs with
    | some g => Except.ok (some (String.mk g))
    | none =>
      match patKeyTo "submit".toList cs with
      | some g => Except.ok (some (String.mk g))
      | none =>
        if patSubmitLiteral cs then Except.error ()
        else Except.ok none

/-- Line 177: `re.search(r"(https?://[^/]+)", url)` (case-sensitive) —
the origin of the current URL as the source computes it. -/
def originSearch (url : String) : Option String :=
  (firstScan (fun s =>
    if startsWithL "https://".toList s then
      let run := (s.drop 8).takeWhile (fun c => c ≠ '/')
      if run.isEmpty then none else some (s.take 8 ++ run)
    else if startsWithL "http://".toList s then
      let run := (s.drop 7).takeWhile (fun c => c ≠ '/')
      if run.isEmpty then none else some (s.take 7 ++ run)
    else none) url.toList).map String.mk

/-- Lines 174-182: the synthesized default submit URL — origin plus
`/submit`, or the hardcoded fallback when no origin is found. -/
def defaultSubmitUrl (url : String) : String :=
  match originSearch url with
  | some o => o ++ "/submit"
  | none => "https://tds-llm-analysis.s-anand.net/submit"

/-- Lines 160-192 on already-decoded content: the submit-URL cascade, the
default, and the returned pair (question text, submit URL); `none` is the
exception path (the `IndexError` of the cascade reaching the `except` at
line 194). -/
def extractCore (c url : String) : Option (String × String) :=
  match findSubmitUrl c with
  | Except.error _ => none
  | Except.ok (some su) => some (c, su)
  | Except.ok none => some (c, defaultSubmitUrl url)

/-- The pure part of `_get_quiz_question`: decode phase then extraction;
`none` models the function returning Python `None` after an exception. -/
def getQuizQuestion (content url : String) : Option (String × String) :=
  extractCore (decodePhase content) url

/-! ## Answer submission (`_submit_answer`, `quiz_solver.py:220-271`)

The HTTP exchange is an oracle outcome; the function below is the pure
mapping from that outcome to the returned verdict value.  Every branch
returns — the source catches `aiohttp.ClientError` and then any other
exception, so no submission failure ever escapes as a raised fault. -/

/-- Oracle outcome of one submission POST. -/
inductive SubmitOutcome where
  | netError (msg : String) : SubmitOutcome
  | otherError (msg : String) : SubmitOutcome
  | jsonBody (v : Json) : SubmitOutcome
  | nonJsonBody (text : String) : SubmitOutcome

/-- `_submit_answer`: parsed bodies are returned verbatim; a non-JSON
body becomes a verdict with the truncated text preview; network and other
errors become verdicts with descriptive reasons. -/
def submitAnswer : SubmitOutcome → Json
  | SubmitOutcome.jsonBody v => v
  | SubmitOutcome.nonJsonBody t =>
    Json.obj [("correct", Json.bool false),
              ("reason", Json.str ("Invalid response from submit endpoint: " ++ takeStr 200 t))]
  | SubmitOutcome.netError m =>
    Json.obj [("correct", Json.bool false),
              ("reason", Json.str ("Network error: " ++ m))]
  | SubmitOutcome.otherError m =>
    Json.obj [("correct", Json.bool false),
              ("reason", Json.str ("Failed to submit: " ++ m))]

/-! ## The orchestrator (`solve_quiz`, `quiz_solver.py:23-117`) -/

/-- `max_retries` (line 37). -/
def maxRetries : Nat := 2

/-- `self.timeout_seconds`, set to `TIMEOUT_SECONDS = 180` by `main.py`. -/
def timeoutSeconds : ℚ := 180

/-- Oracle for one solve/submit attempt inside the retry loop: the LLM
solve call either raises (uncaught, so it propagates out of `solve_quiz`)
or produces an answer whose submission has the given HTTP outcome. -/
inductive Attempt where
  | raises (msg : String) : Attempt
  | submitted (o : SubmitOutcome) : Attempt

/-- Oracle input consumed by one iteration of the outer `while` loop:
the elapsed-time reading at the pre-navigation check, the rendered page
content (`none` when navigation or evaluation raised, which
`_get_quiz_question` catches, returning Python `None`), and the attempt
outcomes indexed by the retry counter. -/
structure StepInput where
  elapsed : ℚ
  content : Option String
  attempts : Nat → Attempt

/-- The inner retry loop (lines 67-93), returning the final `result`
variable, the final `retry_count`, and the number of solve/submit
attempts performed.  The loop guard is `retry_count <= max_retries`; a
correct verdict breaks without touching the counter; an incorrect one
increments it and then breaks if the verdict carries a truthy `url`.
Verdicts that are not dict-shaped make `result.get` raise
(`Except.error`), as do raising solve calls.  Fuel `maxRetries + 2 = 4`
is enough for the three possible iterations plus the final guard check,
so the fuel-exhaustion branch is unreachable from the initial call. -/
def runRetries (att : Nat → Attempt) : Nat → Nat → Option Json →
    Except String (Option Json × Nat × Nat)
  | 0, rc, res => Except.ok (res, rc, 0)
  | fuel + 1, rc, res =>
    if rc ≤ maxRetries then
      match att rc with
      | Attempt.raises m => Except.error m
      | Attempt.submitted o =>
        match submitAnswer o with
        | Json.obj kvs =>
          let v := Json.obj kvs
          if truthy (pyGet v "correct") then Except.ok (some v, rc, 1)
          else if truthy (pyGet v "url") then Except.ok (some v, rc + 1, 1)
          else
            match runRetries att fuel (rc + 1) (some v) with
            | Except.error m => Except.error m
            | Except.ok (r, rc2, a) => Except.ok (r, rc2, a + 1)
        | _ => Except.error "AttributeError: result is not a dict"
    else Except.ok (res, rc, 0)

/-- Lines 95-105: the next value of `current_url` after the retry loop.
On a truthy `correct` the `url` value is assigned as is (possibly falsy,
ending the session); otherwise a truthy `url` advances and a falsy one
sets `current_url = None`. -/
def stepNext (v : Json) : Json :=
  if truthy (pyGet v "correct") then pyGet v "url"
  else if truthy (pyGet v "url") then pyGet v "url"
  else Json.null

/-- The result dictionaries `solve_quiz` can return. -/
inductive SolveResult where
  | timeoutErr : SolveResult
  | parseErr : SolveResult
  | noSubmitUrlErr : SolveResult
  | completed : SolveResult
deriving DecidableEq

/-- The literal dictionaries of lines 44-47, 54-57, 62-65 and 107-110. -/
def solveResultJson : SolveResult → Json
  | SolveResult.timeoutErr =>
    Json.obj [("error", Json.str "Timeout exceeded"),
              ("reason", Json.str "Quiz solving took longer than 3 minutes")]
  | SolveResult.parseErr =>
    Json.obj [("error", Json.str "Failed to parse quiz"),
              ("reason", Json.str "Could not extract quiz question from page")]
  | SolveResult.noSubmitUrlErr =>
    Json.obj [("error", Json.str "No submit URL found"),
              ("reason", Json.str "Quiz page did not contain submit URL")]
  | SolveResult.completed =>
    Json.obj [("status", Json.str "completed"),
              ("message", Json.str "Quiz solving completed")]

/-- The outer `while current_url:` loop of `solve_quiz`.  Each iteration:
truthiness test on `current_url`; the timeout check
(`elapsed > self.timeout_seconds`, strict); navigation and extraction
(a non-string `current_url` makes `page.goto` raise inside
`_get_quiz_question`, which returns `None`); the `if not quiz_data` and
`if not submit_url` error returns; the retry loop; and the `current_url`
update.  `Except.error` models an exception propagating out of
`solve_quiz` (the outer handler at lines 112-114 re-raises);
`Except.ok none` means the oracle ran out of step inputs while the loop
would continue. -/
def solveLoop : Json → List StepInput → Except String (Option SolveResult)
  | cur, steps =>
    if truthy cur then
      match steps with
      | [] => Except.ok none
      | s :: rest =>
        if timeoutSeconds < s.elapsed then Except.ok (some SolveResult.timeoutErr)
        else
          match cur with
          | Json.str u =>
            match s.content with
            | none => Except.ok (some SolveResult.parseErr)
            | some content =>
              match getQuizQuestion content u with
              | none => Except.ok (some SolveResult.parseErr)
              | some (_q, su) =>
                if su = "" then Except.ok (some SolveResult.noSubmitUrlErr)
                else
                  match runRetries s.attempts (maxRetries + 2) 0 none with
                  | Except.error m => Except.error m
                  | Except.ok (none, _, _) =>
                    Except.error "AttributeError: result is None"
                  | Except.ok (some v, _, _) => solveLoop (stepNext v) rest
          | _ => Except.ok (some SolveResult.parseErr)
    else Except.ok (some SolveResult.completed)

/-- `solve_quiz(initial_url)` driven by the oracle steps. -/
def solveQuiz (initialUrl : String) (steps : List StepInput) :
    Except String (Option SolveResult) :=
  solveLoop (Json.str initialUrl) steps

/-- Number of solve/submit attempts performed for the single step whose
attempt oracle is given (the retry loop entered with `retry_count = 0`). -/
def stepAttempts (att : Nat → Attempt) : Option Nat :=
  match runRetries att (maxRetries + 2) 0 none with
  | Except.ok (_, _, a) => some a
  | Except.error _ => none

/-! ## The HTTP handler (`handle_quiz`, `main.py:96-107`)

Credential and shape validation (lines 60-82) precede the modelled
region; after validation the handler awaits `solve_quiz` and maps its
outcome to a status code and body: any returned dictionary is sent with
status 200, and only a raised exception produces the 500 body. -/

/-- Status code and body of the `POST /quiz` response after successful
validation, as a function of the `solve_quiz` outcome. -/
def handleQuiz (outcome : Except String (Option SolveResult)) : Option (Nat × Json) :=
  match outcome with
  | Except.ok (some r) => some (200, solveResultJson r)
  | Except.ok none => none
  | Except.error e =>
    some (500, Json.obj [("error", Json.str "Failed to solve quiz"),
                         ("reason", Json.str e)])

/-! ## Helper lemmas about the loop -/

/-- A falsy `current_url` ends the outer loop with the completed result. -/
theorem solveLoop_falsy (cur : Json) (steps : List StepInput)
    (h : truthy cur = false) :
    solveLoop cur steps = Except.ok (some SolveResult.completed) := by
  unfold solveLoop
  rw [h]
  simp

/-- The retry-loop guard fails once the counter exceeds `max_retries`;
the loop exits with the previous result and no further attempt. -/
theorem runRetries_guard (att : Nat → Attempt) (fuel rc : Nat) (res : Option Json)
    (h : ¬ rc ≤ maxRetries) :
    runRetries att (fuel + 1) rc res = Except.ok (res, rc, 0) := by
  simp [runRetries, h]

/-- One iteration on a truthy-`correct` verdict: break with one attempt,
counter untouched. -/
theorem runRetries_correct (att : Nat → Attempt) (fuel rc : Nat) (res : Option Json)
    (o : SubmitOutcome) (kvs : List (String × Json))
    (ha : att rc = Attempt.submitted o) (hs : submitAnswer o = Json.obj kvs)
    (hrc : rc ≤ maxRetries)
    (hc : truthy (pyGet (Json.obj kvs) "correct") = true) :
    runRetries att (fuel + 1) rc res = Except.ok (some (Json.obj kvs), rc, 1) := by
  simp [runRetries, hrc, ha, hs, hc]

/-- One iteration on a falsy-`correct`, truthy-`url` verdict: the counter
is incremented, then the loop breaks with one attempt. -/
theorem runRetries_urlBreak (att : Nat → Attempt) (fuel rc : Nat) (res : Option Json)
    (o : SubmitOutcome) (kvs : List (String × Json))
    (ha : att rc = Attempt.submitted o) (hs : submitAnswer o = Json.obj kvs)
    (hrc : rc ≤ maxRetries)
    (hc : truthy (pyGet (Json.obj kvs) "correct") = false)
    (hu : truthy (pyGet (Json.obj kvs) "url") = true) :
    runRetries att (fuel + 1) rc res = Except.ok (some (Json.obj kvs), rc + 1, 1) := by
  simp [runRetries, hrc, ha, hs, hc, hu]

/-- One iteration on a falsy-`correct`, falsy-`url` verdict: the counter
is incremented and the loop continues, one more attempt recorded. -/
theorem runRetries_failStep (att : Nat → Attempt) (fuel rc : Nat) (res : Option Json)
    (o : SubmitOutcome) (kvs : List (String × Json))
    (ha : att rc = Attempt.submitted o) (hs : submitAnswer o = Json.obj kvs)
    (hrc : rc ≤ maxRetries)
    (hc : truthy (pyGet (Json.obj kvs) "correct") = false)
    (hu : truthy (pyGet (Json.obj kvs) "url") = false) :
    runRetries att (fuel + 1) rc res =
      (runRetries att fuel (rc + 1) (some (Json.obj kvs))).map
        (fun x => (x.1, x.2.1, x.2.2 + 1)) := by
  simp only [runRetries, hrc, if_true, ha, hs, hc, hu, Bool.false_eq_true, if_false]
  cases runRetries att fuel (rc + 1) (some (Json.obj kvs)) with
  | error m => rfl
  | ok x => rfl

/-- An attempt whose submission yields a dict verdict with falsy
`correct` and falsy `url` (the retry-consuming case). -/
def failAttempt : Attempt → Bool
  | Attempt.raises _ => false
  | Attempt.submitted o =>
    match submitAnswer o with
    | Json.obj kvs =>
      !truthy (pyGet (Json.obj kvs) "correct") && !truthy (pyGet (Json.obj kvs) "url")
    | _ => false

/-- Three retry-consuming attempts exhaust the retry loop: exactly three
attempts are performed, the counter ends at three, and the final verdict
is still falsy on both `correct` and `url`. -/
theorem runRetries_exhaust (att : Nat → Attempt)
    (hv : ∀ i, i < maxRetries + 1 → failAttempt (att i) = true) :
    ∃ v, runRetries att (maxRetries + 2) 0 none =
        Except.ok (some v, maxRetries + 1, maxRetries + 1) ∧
      truthy (pyGet v "correct") = false ∧ truthy (pyGet v "url") = false := by
  have destruct : ∀ i, i < maxRetries + 1 →
      ∃ o kvs, att i = Attempt.submitted o ∧ submitAnswer o = Json.obj kvs ∧
        truthy (pyGet (Json.obj kvs) "correct") = false ∧
        truthy (pyGet (Json.obj kvs) "url") = false := by
    intro i hi
    have h := hv i hi
    cases ha : att i with
    | raises m => rw [ha] at h; simp [failAttempt] at h
    | submitted o =>
      rw [ha] at h
      cases hs : submitAnswer o with
      | obj kvs =>
        rw [failAttempt, hs] at h
        simp only [Bool.and_eq_true, Bool.not_eq_true'] at h
        exact ⟨o, kvs, rfl, hs, h.1, h.2⟩
      | null => rw [failAttempt, hs] at h; simp at h
      | bool b => rw [failAttempt, hs] at h; simp at h
      | num q => rw [failAttempt, hs] at h; simp at h
      | str s => rw [failAttempt, hs] at h; simp at h
      | arr l => rw [failAttempt, hs] at h; simp at h
  obtain ⟨o0, k0, a0, s0, c0, u0⟩ := destruct 0 (by simp [maxRetries])
  obtain ⟨o1, k1, a1, s1, c1, u1⟩ := destruct 1 (by simp [maxRetries])
  obtain ⟨o2, k2, a2, s2, c2, u2⟩ := destruct 2 (by simp [maxRetries])
  refine ⟨Json.obj k2, ?_, c2, u2⟩
  have e0 := runRetries_failStep att 3 0 none o0 k0 a0 s0 (by simp [maxRetries]) c0 u0
  have e1 := runRetries_failStep att 2 1 (some (Json.obj k0)) o1 k1 a1 s1
    (by simp [maxRetries]) c1 u1
  have e2 := runRetries_failStep att 1 2 (some (Json.obj k1)) o2 k2 a2 s2
    (by simp [maxRetries]) c2 u2
  have e3 := runRetries_guard att 0 3 (some (Json.obj k2)) (by simp [maxRetries])
  show runRetries att 4 0 none = Except.ok (some (Json.obj k2), 3, 3)
  rw [show (4 : Nat) = 3 + 1 from rfl] at *
  rw [e0, e1, e2, e3]
  rfl

/-- Claim C1 (counterexample): a session whose single step receives three
consecutive verdicts with falsy `correct` and no `url` terminates, but in
the generic completed state, not a failure state: `solve_quiz` falls out
of the `while` loop via `current_url = None` and returns the success
dictionary, which the HTTP layer sends with status 200. -/
theorem C1_counterexample :
    solveQuiz "https://q.ex/1"
      [⟨0, some "Question 7. Post the answer to https://quiz.example/api",
        fun _ => Attempt.submitted (SubmitOutcome.jsonBody
          (Json.obj [("correct", Json.bool false)]))⟩] =
      Except.ok (some SolveResult.completed) ∧
    stepAttempts (fun _ => Attempt.submitted (SubmitOutcome.jsonBody
      (Json.obj [("correct", Json.bool false)]))) = some 3 ∧
    solveResultJson SolveResult.completed =
      Json.obj [("status", Json.str "completed"),
                ("message", Json.str "Quiz solving completed")] ∧
    SolveResult.completed ≠ SolveResult.timeoutErr ∧
    SolveResult.completed ≠ SolveResult.parseErr ∧
    SolveResult.completed ≠ SolveResult.noSubmitUrlErr := by
  refine ⟨rfl, rfl, rfl, by decide, by decide, by decide⟩

/-- Claim C1 (amended): when the same step receives `max_retries + 1 = 3`
consecutive verdicts with falsy `correct` and no `url`, the orchestrator
performs exactly three solve/submit attempts for that step, never issues
a fourth, and terminates the session — but the returned result is the
generic completed dictionary, not a distinct failure state. -/
theorem C1_amended (u content : String) (e : ℚ) (att : Nat → Attempt)
    (rest : List StepInput)
    (hu : u ≠ "") (he : ¬ timeoutSeconds < e)
    (hq : ∃ q su, getQuizQuestion content u = some (q, su) ∧ su ≠ "")
    (hv : ∀ i, i < maxRetries + 1 → failAttempt (att i) = true) :
    stepAttempts att = some (maxRetries + 1) ∧
    solveQuiz u (⟨e, some content, att⟩ :: rest) =
      Except.ok (some SolveResult.completed) := by
  obtain ⟨q, su, hq1, hq2⟩ := hq
  obtain ⟨v, hrun, hc, hurl⟩ := runRetries_exhaust att hv
  constructor
  · rw [stepAttempts, hrun]
  · show solveLoop (Json.str u) (⟨e, some content, att⟩ :: rest) =
      Except.ok (some SolveResult.completed)
    unfold solveLoop
    rw [show truthy (Json.str u) = true by simp [truthy, hu]]
    simp only [if_true]
    rw [if_neg he]
    have hnext : stepNext v = Json.null := by
      rw [stepNext, hc, hurl]
      simp
    simp only [hq1, if_neg hq2, hrun, hnext]
    exact solveLoop_falsy Json.null rest rfl

/-- Witness for C1: a concrete three-failure run. -/
theorem C1_witness :
    stepAttempts (fun _ => Attempt.submitted (SubmitOutcome.jsonBody
        (Json.obj [("correct", Json.bool false), ("reason", Json.str "wrong")]))) =
      some 3 ∧
    solveQuiz "https://q.ex/1"
      [⟨5, some "Question 7. Post the answer to https://quiz.example/api",
        fun _ => Attempt.submitted (SubmitOutcome.jsonBody
          (Json.obj [("correct", Json.bool false), ("reason", Json.str "wrong")]))⟩] =
      Except.ok (some SolveResult.completed) :=
  C1_amended "https://q.ex/1"
    "Question 7. Post the answer to https://quiz.example/api" 5
    (fun _ => Attempt.submitted (SubmitOutcome.jsonBody
      (Json.obj [("correct", Json.bool false), ("reason", Json.str "wrong")]))) []
    (by decide) (by norm_num [timeoutSeconds])
    ⟨"Question 7. Post the answer to https://quiz.example/api",
      "https://quiz.example/api", rfl, by decide⟩
    (fun i _ => rfl)

/-- Claim C3 (counterexample): on a verdict with `correct=false` and a
`nextURL`, the orchestrator advances to that URL, but the per-step retry
counter is incremented before the break: the final counter is 1, not 0. -/
theorem C3_counterexample :
    runRetries (fun _ => Attempt.submitted (SubmitOutcome.jsonBody
        (Json.obj [("correct", Json.bool false), ("url", Json.str "https://q.ex/2")])))
        (maxRetries + 2) 0 none =
      Except.ok (some (Json.obj [("correct", Json.bool false),
        ("url", Json.str "https://q.ex/2")]), 1, 1) ∧
    stepNext (Json.obj [("correct", Json.bool false),
        ("url", Json.str "https://q.ex/2")]) = Json.str "https://q.ex/2" :=
  ⟨rfl, rfl⟩

/-- Claim C3 (amended): for every verdict carrying a truthy `nextURL`,
regardless of `correct`, the step ends after the current attempt and
`current_url` is set to that `nextURL`; the retry counter is left
untouched when `correct` is truthy but is incremented once when `correct`
is falsy (with no effect on the number of attempts, since the counter is
per-step and the step ends). -/
theorem C3_amended (att : Nat → Attempt) (fuel rc : Nat) (res : Option Json)
    (o : SubmitOutcome) (kvs : List (String × Json))
    (ha : att rc = Attempt.submitted o) (hs : submitAnswer o = Json.obj kvs)
    (hrc : rc ≤ maxRetries)
    (hurl : truthy (pyGet (Json.obj kvs) "url") = true) :
    runRetries att (fuel + 1) rc res =
      Except.ok (some (Json.obj kvs),
        (if truthy (pyGet (Json.obj kvs) "correct") then rc else rc + 1), 1) ∧
    stepNext (Json.obj kvs) = pyGet (Json.obj kvs) "url" := by
  cases hc : truthy (pyGet (Json.obj kvs) "correct") with
  | true =>
    refine ⟨?_, ?_⟩
    · rw [runRetries_correct att fuel rc res o kvs ha hs hrc hc]
      simp
    · rw [stepNext, hc]
      simp
  | false =>
    refine ⟨?_, ?_⟩
    · rw [runRetries_urlBreak att fuel rc res o kvs ha hs hrc hc hurl]
      simp
    · rw [stepNext, hc, hurl]
      simp

/-- Witness for C3: the incorrect-with-url verdict advances after one
attempt with the counter incremented to 1. -/
theorem C3_witness :
    runRetries (fun _ => Attempt.submitted (SubmitOutcome.jsonBody
        (Json.obj [("url", Json.str "https://n.ex/3")]))) 4 0 none =
      Except.ok (some (Json.obj [("url", Json.str "https://n.ex/3")]),
        (if truthy (pyGet (Json.obj [("url", Json.str "https://n.ex/3")]) "correct")
         then 0 else 0 + 1), 1) ∧
    stepNext (Json.obj [("url", Json.str "https://n.ex/3")]) =
      pyGet (Json.obj [("url", Json.str "https://n.ex/3")]) "url" :=
  C3_amended (fun _ => Attempt.submitted (SubmitOutcome.jsonBody
      (Json.obj [("url", Json.str "https://n.ex/3")]))) 3 0 none
    (SubmitOutcome.jsonBody (Json.obj [("url", Json.str "https://n.ex/3")]))
    [("url", Json.str "https://n.ex/3")] rfl rfl (by decide) rfl

/-- Claim C4 (counterexample): with an elapsed reading of exactly 180
seconds at the pre-navigation check, the session does not terminate with
a timeout: the code compares with strict `>`, so it proceeds to navigate
(here the navigation fails and the run ends with the parse error). -/
theorem C4_counterexample :
    solveQuiz "https://q.ex/1" [⟨180, none, fun _ => Attempt.raises "unused"⟩] =
      Except.ok (some SolveResult.parseErr) ∧
    SolveResult.parseErr ≠ SolveResult.timeoutErr :=
  ⟨rfl, by decide⟩

/-- Claim C4 (amended): at every pre-navigation check (including before
the very first navigation), if the elapsed reading strictly exceeds 180
seconds the session terminates with the timeout result; no navigation,
extraction or submission of that or any later step is performed (the
result does not depend on the step contents or on the remaining steps). -/
theorem C4_amended (cur : Json) (s : StepInput) (rest : List StepInput)
    (hcur : truthy cur = true) (he : timeoutSeconds < s.elapsed) :
    solveLoop cur (s :: rest) = Except.ok (some SolveResult.timeoutErr) := by
  unfold solveLoop
  rw [hcur]
  simp only [if_true]
  rw [if_pos he]

/-- Witness for C4: elapsed 181 before the first navigation times out. -/
theorem C4_witness :
    solveLoop (Json.str "https://q.ex/1")
      [⟨181, none, fun _ => Attempt.raises "unused"⟩] =
      Except.ok (some SolveResult.timeoutErr) :=
  C4_amended (Json.str "https://q.ex/1") ⟨181, none, fun _ => Attempt.raises "unused"⟩
    [] (by decide) (by norm_num [timeoutSeconds])

/-- Claim C6 (confirmed): a step whose first submission yields a dict
verdict with truthy `correct` and no `url` terminates the session in the
completed (success) state after exactly one solve/submit attempt,
whatever oracle input might remain. -/
theorem C6_success (u content q su : String) (e : ℚ) (att : Nat → Attempt)
    (rest : List StepInput) (o : SubmitOutcome) (kvs : List (String × Json))
    (hu : u ≠ "") (he : ¬ timeoutSeconds < e)
    (hq : getQuizQuestion content u = some (q, su)) (hsu : su ≠ "")
    (ha : att 0 = Attempt.submitted o) (hs : submitAnswer o = Json.obj kvs)
    (hc : truthy (pyGet (Json.obj kvs) "correct") = true)
    (hurl : pyGet (Json.obj kvs) "url" = Json.null) :
    stepAttempts att = some 1 ∧
    solveQuiz u (⟨e, some content, att⟩ :: rest) =
      Except.ok (some SolveResult.completed) := by
  have hrun := runRetries_correct att (maxRetries + 1) 0 none o kvs ha hs
    (by simp [maxRetries]) hc
  constructor
  · rw [stepAttempts, hrun]
  · show solveLoop (Json.str u) (⟨e, some content, att⟩ :: rest) =
      Except.ok (some SolveResult.completed)
    unfold solveLoop
    rw [show truthy (Json.str u) = true by simp [truthy, hu]]
    simp only [if_true]
    rw [if_neg he]
    have hnext : stepNext (Json.obj kvs) = Json.null := by
      rw [stepNext, hc]
      simp [hurl]
    simp only [hq, if_neg hsu, hrun, hnext]
    exact solveLoop_falsy Json.null rest rfl

/-- Witness for C6: a first-shot correct verdict with no url. -/
theorem C6_witness :
    stepAttempts (fun _ => Attempt.submitted (SubmitOutcome.jsonBody
        (Json.obj [("correct", Json.bool true)]))) = some 1 ∧
    solveQuiz "https://q.ex/1"
      [⟨12, some "Question 7. Post the answer to https://quiz.example/api",
        fun _ => Attempt.submitted (SubmitOutcome.jsonBody
          (Json.obj [("correct", Json.bool true)]))⟩] =
      Except.ok (some SolveResult.completed) :=
  C6_success "https://q.ex/1"
    "Question 7. Post the answer to https://quiz.example/api"
    "Question 7. Post the answer to https://quiz.example/api"
    "https://quiz.example/api" 12
    (fun _ => Attempt.submitted (SubmitOutcome.jsonBody
      (Json.obj [("correct", Json.bool true)]))) []
    (SubmitOutcome.jsonBody (Json.obj [("correct", Json.bool true)]))
    [("correct", Json.bool true)]
    (by decide) (by norm_num [timeoutSeconds]) rfl (by decide) rfl rfl rfl rfl

/-- Claim C2 (code evaluation at the failing input): the page content
carries a backtick-wrapped encoded payload; the decode succeeds and the
decoded text contains the URL `https://quiz.example/submit`, so pattern
(a) matches — and extraction then fails (`none`), because the source
calls `group(1)` on a match of a pattern that has no capture groups
(`lastindex` is `None`, never `0`, for such a match), raising
`IndexError`.  A session visiting this page ends with the parse-error
result instead of submitting to the discovered URL. -/
theorem C2_failing_eval :
    b64utf8 "R28gdG8gaHR0cHM6Ly9xdWl6LmV4YW1wbGUvc3VibWl0".toList =
      some "Go to https://quiz.example/submit" ∧
    signalsEncoding
      "atob(`R28gdG8gaHR0cHM6Ly9xdWl6LmV4YW1wbGUvc3VibWl0`)" = true ∧
    decodePhase "atob(`R28gdG8gaHR0cHM6Ly9xdWl6LmV4YW1wbGUvc3VibWl0`)" =
      "Go to https://quiz.example/submit" ∧
    patSubmitLiteral "Go to https://quiz.example/submit".toList = true ∧
    getQuizQuestion "atob(`R28gdG8gaHR0cHM6Ly9xdWl6LmV4YW1wbGUvc3VibWl0`)"
      "https://quiz.example/q1" = none ∧
    solveQuiz "https://quiz.example/q1"
      [⟨0, some "atob(`R28gdG8gaHR0cHM6Ly9xdWl6LmV4YW1wbGUvc3VibWl0`)",
        fun _ => Attempt.raises "unreached"⟩] =
      Except.ok (some SolveResult.parseErr) :=
  ⟨rfl, rfl, rfl, rfl, rfl, rfl⟩

/-- Claim C7 (confirmed): when no submit-URL pattern matches the decoded
content, extraction succeeds and returns the decoded content as the
question together with the synthesized default submit URL: the origin of
the current URL (first `http(s)://host` occurrence) plus `/submit`, or
the hardcoded literal fallback when no origin can be found in the
current URL. -/
theorem C7_default (content url : String)
    (h : findSubmitUrl (decodePhase content) = Except.ok none) :
    getQuizQuestion content url = some (decodePhase content, defaultSubmitUrl url) ∧
    (∀ o, originSearch url = some o → defaultSubmitUrl url = o ++ "/submit") ∧
    (originSearch url = none →
      defaultSubmitUrl url = "https://tds-llm-analysis.s-anand.net/submit") := by
  refine ⟨?_, ?_, ?_⟩
  · rw [getQuizQuestion, extractCore, h]
  · intro o ho
    rw [defaultSubmitUrl, ho]
  · intro ho
    rw [defaultSubmitUrl, ho]

/-- Witness for C7: the scenario of the specification — content
`Answer is 42` and current URL `https://host.example/q/1` yield the
submit URL `https://host.example/submit`. -/
theorem C7_witness :
    getQuizQuestion "Answer is 42" "https://host.example/q/1" =
      some ("Answer is 42", "https://host.example/submit") :=
  (C7_default "Answer is 42" "https://host.example/q/1" rfl).1

/-- Claim C8 (confirmed): when the content signals an encoded payload,
the decode candidates are tried in order and the first one that both
matches and decodes replaces the content; when the first `i` candidates
fail (no match, or a match whose decode raises) the later ones are still
tried; and when all of them fail the extraction proceeds on the raw
content unmodified — a decode failure alone never fails the extraction,
whose outcome is then exactly that of the raw content. -/
theorem C8_decode (content url : String)
    (hs : signalsEncoding content = true) :
    (∀ t, candDecoded 0 content = some t → decodePhase content = t) ∧
    (candDecoded 0 content = none →
      ∀ t, candDecoded 1 content = some t → decodePhase content = t) ∧
    (candDecoded 0 content = none → candDecoded 1 content = none →
      ∀ t, candDecoded 2 content = some t → decodePhase content = t) ∧
    (candDecoded 0 content = none → candDecoded 1 content = none →
      candDecoded 2 content = none →
      decodePhase content = content ∧
      getQuizQuestion content url = extractCore content url) := by
  refine ⟨?_, ?_, ?_, ?_⟩
  · intro t h0
    rw [decodePhase, if_pos hs, h0]
  · intro h0 t h1
    rw [decodePhase, if_pos hs, h0, h1]
  · intro h0 h1 t h2
    rw [decodePhase, if_pos hs, h0, h1, h2]
  · intro h0 h1 h2
    have hd : decodePhase content = content := by
      rw [decodePhase, if_pos hs, h0, h1, h2]
    exact ⟨hd, by rw [getQuizQuestion, hd]⟩

/-- Witness for C8: content that signals encoding but where every decode
candidate fails is extracted from the raw content unmodified. -/
theorem C8_witness :
    decodePhase "base64 ???? see atob" = "base64 ???? see atob" ∧
    getQuizQuestion "base64 ???? see atob" "https://h.example/q" =
      extractCore "base64 ???? see atob" "https://h.example/q" :=
  (C8_decode "base64 ???? see atob" "https://h.example/q" rfl).2.2.2 rfl rfl rfl

/-- Claim C5 (counterexample): a session that hits the deadline returns
the timeout fault dictionary from `solve_quiz` as an ordinary value, and
the handler sends it with status 200 — a session-level fault delivered
with status 200, with no 500 involved. -/
theorem C5_counterexample :
    handleQuiz (solveQuiz "https://q.ex/1"
        [⟨181, none, fun _ => Attempt.raises "unused"⟩]) =
      some (200, solveResultJson SolveResult.timeoutErr) ∧
    pyGet (solveResultJson SolveResult.timeoutErr) "error" =
      Json.str "Timeout exceeded" ∧
    pyGet (solveResultJson SolveResult.timeoutErr) "status" = Json.null :=
  ⟨rfl, rfl, rfl⟩

/-- Claim C5 (amended): after credential validation, every dictionary
returned by `solve_quiz` — the completed status as well as the caught
session-level faults (timeout exceeded, extraction failure, missing
submit URL), which are returned as values rather than raised — is sent
to the HTTP caller with status 200; the 500 response with
`error`/`reason` body occurs exactly when `solve_quiz` raises an
uncaught exception. -/
theorem C5_amended :
    (∀ r : SolveResult, handleQuiz (Except.ok (some r)) =
      some (200, solveResultJson r)) ∧
    (∀ e : String, handleQuiz (Except.error e) =
      some (500, Json.obj [("error", Json.str "Failed to solve quiz"),
                           ("reason", Json.str e)])) :=
  ⟨fun _ => rfl, fun _ => rfl⟩

/-! ## C9: the submitter never raises -/

/-- Submission outcomes other than a successfully parsed body. -/
def nonParseOutcome : SubmitOutcome → Bool
  | SubmitOutcome.jsonBody _ => false
  | _ => true

/-- For every non-parsed outcome the submitter builds a dict verdict. -/
theorem submitAnswer_obj_of_nonParse (o : SubmitOutcome)
    (h : nonParseOutcome o = true) : ∃ kvs, submitAnswer o = Json.obj kvs := by
  cases o with
  | jsonBody v => simp [nonParseOutcome] at h
  | nonJsonBody t => exact ⟨_, rfl⟩
  | netError m => exact ⟨_, rfl⟩
  | otherError m => exact ⟨_, rfl⟩

/-- A list prefix stays a prefix under appending on the right. -/
theorem startsWithL_mono (p a rest : List Char) (h : startsWithL p a = true) :
    startsWithL p (a ++ rest) = true := by
  induction p generalizing a with
  | nil => rfl
  | cons c cs ih =>
    cases a with
    | nil => simp [startsWithL] at h
    | cons b bs =>
      simp only [startsWithL, Bool.and_eq_true] at h
      simp only [List.cons_append, startsWithL, Bool.and_eq_true]
      exact ⟨h.1, ih bs h.2⟩

/-- If the attempt oracle only ever submits with non-parsed-body or
parsed-dict-free outcomes handled by the submitter, the retry loop never
produces a raised fault. -/
theorem runRetries_no_raise (att : Nat → Attempt)
    (h : ∀ i, ∃ o, att i = Attempt.submitted o ∧ nonParseOutcome o = true) :
    ∀ fuel rc res, ∃ out, runRetries att fuel rc res = Except.ok out := by
  intro fuel
  induction fuel with
  | zero => exact fun rc res => ⟨(res, rc, 0), rfl⟩
  | succ fuel ih =>
    intro rc res
    by_cases hrc : rc ≤ maxRetries
    · obtain ⟨o, ho, hno⟩ := h rc
      obtain ⟨kvs, hkvs⟩ := submitAnswer_obj_of_nonParse o hno
      by_cases hc : truthy (pyGet (Json.obj kvs) "correct") = true
      · exact ⟨_, runRetries_correct att fuel rc res o kvs ho hkvs hrc hc⟩
      · have hc' : truthy (pyGet (Json.obj kvs) "correct") = false :=
          Bool.not_eq_true _ ▸ eq_false_of_ne_true hc
        by_cases hu : truthy (pyGet (Json.obj kvs) "url") = true
        · exact ⟨_, runRetries_urlBreak att fuel rc res o kvs ho hkvs hrc hc' hu⟩
        · have hu' : truthy (pyGet (Json.obj kvs) "url") = false :=
            eq_false_of_ne_true hu
          obtain ⟨out, hout⟩ := ih (rc + 1) (some (Json.obj kvs))
          refine ⟨(out.1, out.2.1, out.2.2 + 1), ?_⟩
          rw [runRetries_failStep att fuel rc res o kvs ho hkvs hrc hc' hu', hout]
          rfl
    · exact ⟨(res, rc, 0), runRetries_guard att fuel rc res hrc⟩

/-- Claim C9 (confirmed): an unparseable response body and every
network-layer failure are converted by `_submit_answer` into a returned
verdict with `correct=false` and a descriptive reason — the
malformed-body reason starts with `Invalid response` and embeds the body
truncated to at most 200 characters — and such outcomes never surface to
the orchestrator as a raised fault: the retry loop always returns. -/
theorem C9_submitter (t m1 m2 : String) :
    submitAnswer (SubmitOutcome.nonJsonBody t) =
      Json.obj [("correct", Json.bool false),
        ("reason", Json.str ("Invalid response from submit endpoint: " ++ takeStr 200 t))] ∧
    pyGet (submitAnswer (SubmitOutcome.nonJsonBody t)) "correct" = Json.bool false ∧
    startsWithL "Invalid response".toList
      ("Invalid response from submit endpoint: " ++ takeStr 200 t).toList = true ∧
    (takeStr 200 t).toList.length ≤ 200 ∧
    (pyGet (submitAnswer (SubmitOutcome.netError m1)) "correct" = Json.bool false ∧
      pyGet (submitAnswer (SubmitOutcome.netError m1)) "reason" =
        Json.str ("Network error: " ++ m1)) ∧
    (pyGet (submitAnswer (SubmitOutcome.otherError m2)) "correct" = Json.bool false ∧
      pyGet (submitAnswer (SubmitOutcome.otherError m2)) "reason" =
        Json.str ("Failed to submit: " ++ m2)) ∧
    (∀ (att : Nat → Attempt),
      (∀ i, ∃ o, att i = Attempt.submitted o ∧ nonParseOutcome o = true) →
      ∀ fuel rc res, ∃ out, runRetries att fuel rc res = Except.ok out) := by
  refine ⟨rfl, rfl, ?_, ?_, ⟨rfl, rfl⟩, ⟨rfl, rfl⟩, fun att h => runRetries_no_raise att h⟩
  · exact startsWithL_mono "Invalid response".toList
      "Invalid response from submit endpoint: ".toList (takeStr 200 t).toList
      (by decide)
  · show (t.toList.take 200).length ≤ 200
    rw [List.length_take]
    exact Nat.min_le_left _ _

/-- Witness for C9: the scenario of the specification — response body
`not-json-text` gives a `correct=false` verdict whose reason starts with
`Invalid response`, and a session fed only such outcomes never raises. -/
theorem C9_witness :
    submitAnswer (SubmitOutcome.nonJsonBody "not-json-text") =
      Json.obj [("correct", Json.bool false),
        ("reason", Json.str "Invalid response from submit endpoint: not-json-text")] ∧
    (∃ out, runRetries
      (fun _ => Attempt.submitted (SubmitOutcome.nonJsonBody "not-json-text"))
      4 0 none = Except.ok out) :=
  ⟨(C9_submitter "not-json-text" "x" "y").1,
    (C9_submitter "not-json-text" "x" "y").2.2.2.2.2.2
      (fun _ => Attempt.submitted (SubmitOutcome.nonJsonBody "not-json-text"))
      (fun _ => ⟨SubmitOutcome.nonJsonBody "not-json-text", rfl, rfl⟩) 4 0 none⟩

/-- Claim C10 (counterexample): a parsed JSON object with a `url` field
whose value is falsy (here the empty string) and no `correct` field is
returned verbatim, but the orchestrator does not advance to the `url`
value: it consumes all three retries (three attempts, counter 3) and
then sets `current_url = None`. -/
theorem C10_counterexample :
    pyHasKey (Json.obj [("url", Json.str "")]) "url" = true ∧
    pyGet (Json.obj [("url", Json.str "")]) "correct" = Json.null ∧
    submitAnswer (SubmitOutcome.jsonBody (Json.obj [("url", Json.str "")])) =
      Json.obj [("url", Json.str "")] ∧
    runRetries (fun _ => Attempt.submitted (SubmitOutcome.jsonBody
        (Json.obj [("url", Json.str "")]))) (maxRetries + 2) 0 none =
      Except.ok (some (Json.obj [("url", Json.str "")]), 3, 3) ∧
    stepNext (Json.obj [("url", Json.str "")]) = Json.null :=
  ⟨rfl, rfl, rfl, rfl, rfl⟩

/-- Claim C10 (amended): a submission response parsing to a JSON object
without a `correct` field (or with a falsy value for it) is returned
verbatim as the verdict and the attempt is treated as incorrect; a retry
is consumed when the object lacks a `url` field or its value is falsy,
and the orchestrator advances to the `url` value when it is truthy; no
verdict-shape validation on such objects raises a fault. -/
theorem C10_amended (kvs : List (String × Json))
    (hc : truthy (pyGet (Json.obj kvs) "correct") = false) :
    submitAnswer (SubmitOutcome.jsonBody (Json.obj kvs)) = Json.obj kvs ∧
    (∀ (att : Nat → Attempt) (fuel rc : Nat) (res : Option Json),
      att rc = Attempt.submitted (SubmitOutcome.jsonBody (Json.obj kvs)) →
      rc ≤ maxRetries →
      truthy (pyGet (Json.obj kvs) "url") = true →
      runRetries att (fuel + 1) rc res =
        Except.ok (some (Json.obj kvs), rc + 1, 1) ∧
      stepNext (Json.obj kvs) = pyGet (Json.obj kvs) "url") ∧
    (∀ (att : Nat → Attempt) (fuel rc : Nat) (res : Option Json),
      att rc = Attempt.submitted (SubmitOutcome.jsonBody (Json.obj kvs)) →
      rc ≤ maxRetries →
      truthy (pyGet (Json.obj kvs) "url") = false →
      runRetries att (fuel + 1) rc res =
        (runRetries att fuel (rc + 1) (some (Json.obj kvs))).map
          (fun x => (x.1, x.2.1, x.2.2 + 1))) := by
  refine ⟨rfl, ?_, ?_⟩
  · intro att fuel rc res ha hrc hu
    refine ⟨runRetries_urlBreak att fuel rc res _ kvs ha rfl hrc hc hu, ?_⟩
    rw [stepNext, hc, hu]
    simp
  · intro att fuel rc res ha hrc hu
    exact runRetries_failStep att fuel rc res _ kvs ha rfl hrc hc hu

/-- Witness for C10: the object with a truthy `url` and no `correct` is
returned verbatim and advances after a single attempt. -/
theorem C10_witness :
    submitAnswer (SubmitOutcome.jsonBody (Json.obj [("url", Json.str "https://n.ex/4")])) =
      Json.obj [("url", Json.str "https://n.ex/4")] ∧
    runRetries (fun _ => Attempt.submitted (SubmitOutcome.jsonBody
        (Json.obj [("url", Json.str "https://n.ex/4")]))) 4 0 none =
      Except.ok (some (Json.obj [("url", Json.str "https://n.ex/4")]), 0 + 1, 1) ∧
    stepNext (Json.obj [("url", Json.str "https://n.ex/4")]) =
      pyGet (Json.obj [("url", Json.str "https://n.ex/4")]) "url" :=
  ⟨(C10_amended [("url", Json.str "https://n.ex/4")] rfl).1,
    ((C10_amended [("url", Json.str "https://n.ex/4")] rfl).2.1
      (fun _ => Attempt.submitted (SubmitOutcome.jsonBody
        (Json.obj [("url", Json.str "https://n.ex/4")]))) 3 0 none rfl
      (by decide) rfl).1,
    ((C10_amended [("url", Json.str "https://n.ex/4")] rfl).2.1
      (fun _ => Attempt.submitted (SubmitOutcome.jsonBody
        (Json.obj [("url", Json.str "https://n.ex/4")]))) 3 0 none rfl
      (by decide) rfl).2⟩
